import Mathlib

/-!
Verification of the MCP coordinator routes (registry, ledger, dispatcher,
system status) of the Dashboard-MCP repository.

The embedding models the Flask route handlers in
src/ai-dashboard-mcp/src/routes/mcp.py over the SQLAlchemy models in
src/ai-dashboard-mcp/src/models/user.py.  The durable store is a pair of
lists (agents, tasks) kept in insertion (rowid) order; timestamps are
naturals (datetime.utcnow is passed in as an explicit clock value);
opaque JSON payloads are carried as strings; every route returns the new
store together with either a success payload or an (HTTP status, message)
error, which is how the handlers respond.
-/

namespace MCP

/-- An Agent row (models class Agent in user.py).  status is a free string,
as in the column; last_heartbeat, created_at, updated_at have utcnow
defaults at insert, and updated_at has an on-update hook that refreshes it
on every row update. -/
structure Agent where
  id : String
  name : String
  description : String
  endpoint : String
  capabilities : Option String
  status : String
  last_heartbeat : Option Nat
  created_at : Nat
  updated_at : Nat
deriving DecidableEq

/-- A Task row (models class Task in user.py).  parameters and result are
opaque serialized blobs; started_at and completed_at start NULL. -/
structure Task where
  task_id : String
  agent_id : String
  task_type : String
  parameters : Option String
  status : String
  result : Option String
  error_message : Option String
  priority : Int
  created_at : Nat
  started_at : Option Nat
  completed_at : Option Nat
deriving DecidableEq

/-- The durable store: agents and tasks in insertion (rowid) order. -/
structure DB where
  agents : List Agent
  tasks : List Task
deriving DecidableEq

/-- A structured error response: HTTP status code and message, exactly as
the handlers produce with jsonify({error: msg}), code. -/
abbrev ApiErr := Nat × String

/-- Request body of POST /agents (register_agent).  Required fields are
Options because the handler checks their presence itself. -/
structure RegisterData where
  id : Option String
  name : Option String
  endpoint : Option String
  description : Option String
  capabilities : Option String

/-- register_agent (mcp.py lines 20-58): validates id, name, endpoint in
that order; 409 if the id already exists; otherwise inserts a new agent
with status active and utcnow defaults for the timestamp columns. -/
def register_agent (db : DB) (now : Nat) (d : RegisterData) :
    DB × Except ApiErr Agent :=
  match d.id with
  | none => (db, .error (400, "Missing required field: id"))
  | some i =>
    match d.name with
    | none => (db, .error (400, "Missing required field: name"))
    | some nm =>
      match d.endpoint with
      | none => (db, .error (400, "Missing required field: endpoint"))
      | some ep =>
        match db.agents.find? (fun a => a.id == i) with
        | some _ => (db, .error (409, "Agent with this ID already exists"))
        | none =>
          let a : Agent :=
            { id := i, name := nm, description := d.description.getD "",
              endpoint := ep, capabilities := d.capabilities,
              status := "active", last_heartbeat := some now,
              created_at := now, updated_at := now }
          ({ db with agents := db.agents ++ [a] }, .ok a)

/-- agent_heartbeat (mcp.py lines 95-108): when the id is absent,
get_or_404 raises NotFound, which the handler's own except Exception
intercepts, so the route answers 500 Internal server error; otherwise it
sets last_heartbeat to now and status to active.  Committing the update
also fires the updated_at on-update hook of the Agent model (user.py line
17), refreshing updated_at to now. -/
def agent_heartbeat (db : DB) (now : Nat) (aid : String) :
    DB × Except ApiErr Unit :=
  match db.agents.find? (fun a => a.id == aid) with
  | none => (db, .error (500, "Internal server error"))
  | some _ =>
      ({ db with agents := db.agents.map (fun a =>
          if a.id == aid then
            { a with last_heartbeat := some now, status := "active",
                     updated_at := now }
          else a) },
       .ok ())

/-- The per-task cascade of unregister_agent: a task that is pending for
the removed agent becomes cancelled with error message
"Agent unregistered" and completed_at now; every other task is untouched. -/
def cancelPending (aid : String) (now : Nat) (t : Task) : Task :=
  if t.agent_id == aid && t.status == "pending" then
    { t with status := "cancelled", error_message := some "Agent unregistered",
             completed_at := some now }
  else t

/-- unregister_agent (mcp.py lines 110-131): when the id is absent,
get_or_404 raises NotFound, caught by the handler's except Exception, so
the route answers 500 Internal server error.  When the agent still owns
any task row, deleting the agent makes the ORM null the children's
agent_id foreign key at flush (Agent.tasks has no delete cascade, user.py
line 60) and Task.agent_id is NOT NULL (user.py line 48), so the commit
raises IntegrityError, the catch-all answers 500 and nothing is persisted
- neither the delete nor the pending-task cancellations.  Only an agent
without tasks is deleted (its cancellation loop then runs zero times). -/
def unregister_agent (db : DB) (now : Nat) (aid : String) :
    DB × Except ApiErr Unit :=
  match db.agents.find? (fun a => a.id == aid) with
  | none => (db, .error (500, "Internal server error"))
  | some _ =>
      if db.tasks.any (fun t => t.agent_id == aid) then
        (db, .error (500, "Internal server error"))
      else
        ({ agents := db.agents.filter (fun a => a.id != aid),
           tasks := db.tasks.map (cancelPending aid now) },
         .ok ())

/-- The filter of GET /tasks: each of agent_id, status, task_type is
applied only when present and non-empty (request.args.get yields None when
absent, and the handler tests the value for truthiness, so an empty string
also disables the filter). -/
def matchesFilter (aid st tt : Option String) (t : Task) : Bool :=
  (match aid with
   | none => true
   | some x => if x == "" then true else t.agent_id == x) &&
  (match st with
   | none => true
   | some x => if x == "" then true else t.status == x) &&
  (match tt with
   | none => true
   | some x => if x == "" then true else t.task_type == x)

/-- The ORDER BY of GET /tasks as a boolean total preorder: priority
ascending, then created_at ascending. -/
def taskLE (a b : Task) : Bool :=
  a.priority < b.priority ||
    (a.priority == b.priority && a.created_at ≤ b.created_at)

/-- The ORDER BY relation of GET /tasks as a Prop. -/
def taskLEP (a b : Task) : Prop := taskLE a b = true

instance : DecidableRel taskLEP := fun a b =>
  inferInstanceAs (Decidable (taskLE a b = true))

instance : IsTotal Task taskLEP :=
  ⟨by
    intro a b
    simp only [taskLEP, taskLE, Bool.or_eq_true, Bool.and_eq_true,
      decide_eq_true_eq, beq_iff_eq]
    omega⟩

instance : IsTrans Task taskLEP :=
  ⟨by
    intro a b c h1 h2
    simp only [taskLEP, taskLE, Bool.or_eq_true, Bool.and_eq_true,
      decide_eq_true_eq, beq_iff_eq] at h1 h2 ⊢
    omega⟩

/-- get_tasks (mcp.py lines 133-159): filters by the optional query
parameters and orders by priority ascending then created_at ascending.
The sort is modelled as a stable sort of the rows in rowid order, which
is how SQLite serves this ORDER BY over the rowid table. -/
def get_tasks (db : DB) (aid st tt : Option String) : List Task :=
  List.insertionSort taskLEP (db.tasks.filter (matchesFilter aid st tt))

/-- Request body of PUT /tasks/:id/status: each field is applied only when
present. -/
structure StatusUpdate where
  status : Option String
  result : Option String
  error_message : Option String

/-- The terminal statuses recognised by update_task_status. -/
def terminalStatuses : List String := ["completed", "failed", "cancelled"]

/-- The per-task effect of update_task_status (mcp.py lines 217-233): if a
status is supplied it is stored; started_at is set only on the
pending-to-running edge, completed_at whenever the new status is terminal;
result and error_message are stored independently when supplied. -/
def applyStatusUpdate (now : Nat) (d : StatusUpdate) (t : Task) : Task :=
  let t1 :=
    match d.status with
    | none => t
    | some s =>
        let base := { t with status := s }
        if s == "running" && t.status == "pending" then
          { base with started_at := some now }
        else if terminalStatuses.contains s then
          { base with completed_at := some now }
        else base
  let t2 :=
    match d.result with
    | none => t1
    | some r => { t1 with result := some r }
  match d.error_message with
  | none => t2
  | some e => { t2 with error_message := some e }

/-- update_task_status (mcp.py lines 209-242): when no task has the given
task_id, first_or_404 raises NotFound, caught by the handler's except
Exception, so the route answers 500 Internal server error; otherwise it
applies the partial update and returns the updated task. -/
def update_task_status (db : DB) (now : Nat) (tid : String)
    (d : StatusUpdate) : DB × Except ApiErr Task :=
  match db.tasks.find? (fun t => t.task_id == tid) with
  | none => (db, .error (500, "Internal server error"))
  | some t =>
      ({ db with tasks := db.tasks.map (fun u =>
          if u.task_id == tid then applyStatusUpdate now d u else u) },
       .ok (applyStatusUpdate now d t))

/-- Outcome of the synchronous requests.post call made by execute_task:
either a response with a status code, or a raised RequestException with a
message. -/
inductive NetOutcome
  | ok (statusCode : Nat)
  | exn (msg : String)
deriving DecidableEq

/-- The running transition taken by execute_task before the network call. -/
def markRunning (now1 : Nat) (t : Task) : Task :=
  { t with status := "running", started_at := some now1 }

/-- The failed transition taken by execute_task after a bad response or a
transport error. -/
def markFailed (now2 : Nat) (msg : String) (t : Task) : Task :=
  { t with status := "failed", error_message := some msg,
           completed_at := some now2 }

/-- execute_task (mcp.py lines 244-298): when the task is absent,
first_or_404 raises NotFound, caught by the outer except Exception, so the
route answers 500 Internal server error; 400 if the task is not pending;
400 if its agent is absent or not active; otherwise the
task is set running with started_at = now1 and committed, the agent is
called, and then: status code 200 returns task_sent_to_agent; any other
status code marks the task failed (error message names the code,
completed_at = now2) and returns 500; a transport exception marks the task
failed likewise and returns 500.  now1 is the clock before the call, now2
after it. -/
def execute_task (db : DB) (now1 now2 : Nat) (tid : String)
    (net : NetOutcome) : DB × Except ApiErr String :=
  match db.tasks.find? (fun t => t.task_id == tid) with
  | none => (db, .error (500, "Internal server error"))
  | some t =>
    if t.status != "pending" then
      (db, .error (400, "Task is not in pending status"))
    else
      match db.agents.find? (fun a => a.id == t.agent_id) with
      | none => (db, .error (400, "Agent not available"))
      | some ag =>
        if ag.status != "active" then
          (db, .error (400, "Agent not available"))
        else
          let db1 : DB :=
            { db with tasks := db.tasks.map (fun u =>
                if u.task_id == tid then markRunning now1 u else u) }
          match net with
          | .ok c =>
              if c == 200 then (db1, .ok "task_sent_to_agent")
              else
                ({ db1 with tasks := db1.tasks.map (fun u =>
                    if u.task_id == tid then
                      markFailed now2 ("Agent returned status " ++ toString c) u
                    else u) },
                 .error (500, "Agent execution failed"))
          | .exn m =>
              ({ db1 with tasks := db1.tasks.map (fun u =>
                  if u.task_id == tid then
                    markFailed now2 ("Failed to communicate with agent: " ++ m) u
                  else u) },
               .error (500, "Failed to communicate with agent"))

/-- Agent counts of GET /system/status. -/
structure AgentCounts where
  active : Nat
  inactive : Nat
  error : Nat
  total : Nat
deriving DecidableEq

/-- Task counts of GET /system/status. -/
structure TaskCounts where
  pending : Nat
  running : Nat
  completed : Nat
  failed : Nat
  total : Nat
deriving DecidableEq

/-- The payload of GET /system/status. -/
structure SystemStatus where
  agents : AgentCounts
  tasks : TaskCounts
deriving DecidableEq

/-- Number of agents whose status equals s (Agent.query.filter_by(status=s).count()). -/
def countAgents (db : DB) (s : String) : Nat :=
  (db.agents.filter (fun a => a.status == s)).length

/-- Number of tasks whose status equals s (Task.query.filter_by(status=s).count()). -/
def countTasks (db : DB) (s : String) : Nat :=
  (db.tasks.filter (fun t => t.status == s)).length

/-- get_system_status (mcp.py lines 300-336): counts agents with status
active, inactive, error and tasks with status pending, running, completed,
failed; each total is the sum of the listed counts. -/
def get_system_status (db : DB) : SystemStatus :=
  let aa := countAgents db "active"
  let ia := countAgents db "inactive"
  let ea := countAgents db "error"
  let tp := countTasks db "pending"
  let tr := countTasks db "running"
  let tc := countTasks db "completed"
  let tf := countTasks db "failed"
  { agents := { active := aa, inactive := ia, error := ea,
                total := aa + ia + ea },
    tasks := { pending := tp, running := tr, completed := tc, failed := tf,
               total := tp + tr + tc + tf } }

/-- Exactly one of result and error_message is populated. -/
def exactlyOnePopulated (t : Task) : Bool :=
  t.result.isSome ^^ t.error_message.isSome

/-- The strict (priority, created_at) lexicographic order underlying the
ORDER BY of get_tasks. -/
def taskKeyLT (a b : Task) : Prop :=
  a.priority < b.priority ∨
    (a.priority = b.priority ∧ a.created_at < b.created_at)

/-- Two tasks with the same (priority, created_at) sort key. -/
def sameKey (a b : Task) : Prop :=
  a.priority = b.priority ∧ a.created_at = b.created_at

instance : DecidableRel sameKey := fun a b =>
  inferInstanceAs
    (Decidable (a.priority = b.priority ∧ a.created_at = b.created_at))

instance : IsAntisymm Task taskKeyLT :=
  ⟨by
    intro a b h1 h2
    exfalso
    rcases h1 with h1 | ⟨e1, h1⟩ <;> rcases h2 with h2 | ⟨e2, h2⟩ <;> omega⟩

/-! Concrete fixtures used by witnesses and counterexamples. -/

/-- A registered active agent. -/
def agentA : Agent :=
  { id := "a1", name := "Agent One", description := "", endpoint := "http://a1",
    capabilities := none, status := "active", last_heartbeat := some 0,
    created_at := 0, updated_at := 0 }

/-- An inactive agent. -/
def agentI : Agent := { agentA with id := "a2", status := "inactive" }

/-- A pending task for agentA. -/
def taskP : Task :=
  { task_id := "t1", agent_id := "a1", task_type := "w", parameters := none,
    status := "pending", result := none, error_message := none, priority := 5,
    created_at := 1, started_at := none, completed_at := none }

/-- A running task for agentA. -/
def taskR : Task := { taskP with task_id := "t2", status := "running" }

/-- A store with one active agent and one pending task for it. -/
def dbT : DB := { agents := [agentA], tasks := [taskP] }

/-- A store with one active agent. -/
def dbA : DB := { agents := [agentA], tasks := [] }

/-- A cancelled task, used to witness C10. -/
def taskC : Task := { taskP with task_id := "t3", status := "cancelled" }

/-- The well-formed terminal update used to witness C7. -/
def updCompR : StatusUpdate :=
  { status := some "completed", result := some "r", error_message := none }

/-- A pending task sharing the (priority, created_at) key of taskP. -/
def taskU : Task := { taskP with task_id := "u" }

/-- Another pending task sharing that key, distinct from taskU. -/
def taskV : Task := { taskP with task_id := "v" }

/-- A higher-priority task with a key distinct from taskP's. -/
def taskHiP : Task :=
  { taskP with task_id := "h", priority := 1, created_at := 2 }

/-- Two stores holding the same two distinct-key tasks in opposite
insertion orders. -/
def dbW1 : DB := { agents := [], tasks := [taskP, taskHiP] }

/-- The other insertion order of the tasks of dbW1. -/
def dbW2 : DB := { agents := [], tasks := [taskHiP, taskP] }

/-- The diagnostic error message stored on the task by the failure
branches of execute_task, per network outcome. -/
def dispatchFailMsg : NetOutcome → String
  | .ok c => "Agent returned status " ++ toString c
  | .exn m => "Failed to communicate with agent: " ++ m

/-- The error message of the 500 response of the failure branches of
execute_task, per network outcome. -/
def dispatchFailResp : NetOutcome → String
  | .ok _ => "Agent execution failed"
  | .exn _ => "Failed to communicate with agent"

/-! Helper lemmas shared between the claims. -/

/-- Appending to a non-empty string cannot give the empty string. -/
theorem prefix_append_ne_empty (p s : String) (hp : 0 < p.length) :
    p ++ s ≠ "" := by
  intro h
  have hl := congrArg String.length h
  rw [String.length_append] at hl
  have h0 : ("" : String).length = 0 := by decide
  rw [h0] at hl
  omega

/-- Two per-id task transformations applied in sequence collapse to their
composition when the first preserves task_id. -/
theorem map_if_comp (l : List Task) (tid : String) (f g : Task → Task)
    (hf : ∀ u, (f u).task_id = u.task_id) :
    (l.map (fun u => if u.task_id == tid then f u else u)).map
        (fun u => if u.task_id == tid then g u else u) =
      l.map (fun u => if u.task_id == tid then g (f u) else u) := by
  rw [List.map_map]
  refine List.map_congr_left (fun u _ => ?_)
  by_cases hc : u.task_id = tid
  · simp [Function.comp, hc, hf]
  · simp [Function.comp, hc]

/-- cancelPending on a task that is pending for the removed agent. -/
theorem cancelPending_hit (aid : String) (now : Nat) (u : Task)
    (h1 : u.agent_id = aid) (h2 : u.status = "pending") :
    cancelPending aid now u =
      { u with status := "cancelled",
               error_message := some "Agent unregistered",
               completed_at := some now } := by
  simp [cancelPending, h1, h2]

/-- cancelPending on any task that is not pending for the removed agent. -/
theorem cancelPending_miss (aid : String) (now : Nat) (u : Task)
    (h : ¬(u.agent_id = aid ∧ u.status = "pending")) :
    cancelPending aid now u = u := by
  have hcond : ¬((u.agent_id == aid && u.status == "pending") = true) := by
    simp only [Bool.and_eq_true, beq_iff_eq]
    exact h
  simp only [cancelPending, if_neg hcond]

/-- The pending-to-running test of update_task_status, false case. -/
theorem statusCond_false {s : String} {t : Task}
    (h : ¬(s = "running" ∧ t.status = "pending")) :
    (s == "running" && t.status == "pending") = false := by
  cases hb : (s == "running" && t.status == "pending")
  · rfl
  · exact absurd (by simpa [Bool.and_eq_true, beq_iff_eq] using hb) h

/-- applyStatusUpdate factors into the status stage followed by the
independent result/error_message writes. -/
theorem applyStatusUpdate_proj (now : Nat) (ds dr de : Option String)
    (t : Task) :
    applyStatusUpdate now ⟨ds, dr, de⟩ t =
      { applyStatusUpdate now ⟨ds, none, none⟩ t with
          result := dr.or t.result,
          error_message := de.or t.error_message } := by
  cases ds <;> cases dr <;> cases de <;>
    simp only [applyStatusUpdate, Option.or] <;>
    first
      | rfl
      | (split <;> first
          | rfl
          | (split <;> rfl))

/-- Field values of the status stage of applyStatusUpdate when a status is
supplied. -/
theorem applyStatusUpdate_status_some (now : Nat) (t : Task) (s : String) :
    (applyStatusUpdate now ⟨some s, none, none⟩ t).status = s ∧
    (applyStatusUpdate now ⟨some s, none, none⟩ t).started_at =
      (if s = "running" ∧ t.status = "pending" then some now
       else t.started_at) ∧
    (applyStatusUpdate now ⟨some s, none, none⟩ t).completed_at =
      (if s = "completed" ∨ s = "failed" ∨ s = "cancelled" then some now
       else t.completed_at) := by
  by_cases h1 : s = "running" ∧ t.status = "pending"
  · have hb : (s == "running" && t.status == "pending") = true := by
      simp [h1.1, h1.2]
    simp [applyStatusUpdate, hb, h1, h1.1]
  · have hb := statusCond_false h1
    by_cases h2 : s = "completed" ∨ s = "failed" ∨ s = "cancelled"
    · have hm : s ∈ terminalStatuses := by
        rcases h2 with h | h | h <;> simp [terminalStatuses, h]
      simp [applyStatusUpdate, hb, hm, h1, h2]
    · have hm : s ∉ terminalStatuses := by
        simpa [terminalStatuses] using h2
      simp [applyStatusUpdate, hb, hm, h1, h2]

/-- The status stage of applyStatusUpdate does nothing when no status is
supplied. -/
theorem applyStatusUpdate_status_none (now : Nat) (t : Task) :
    applyStatusUpdate now ⟨none, none, none⟩ t = t := rfl

/-! Claims. -/

/-- Claim C8: for every agent id already present in the registry, a second
registration attempt with that id (carrying the required fields) fails with
the 409 Conflict response and leaves the whole store, in particular every
field of the original agent record, unmodified. -/
theorem register_duplicate_conflict (db : DB) (now : Nat) (d : RegisterData)
    (i nm ep : String) (a0 : Agent)
    (hid : d.id = some i) (hnm : d.name = some nm) (hep : d.endpoint = some ep)
    (hdup : db.agents.find? (fun a => a.id == i) = some a0) :
    register_agent db now d =
      (db, .error (409, "Agent with this ID already exists")) := by
  simp [register_agent, hid, hnm, hep, hdup]

/-- Witness for C8: registering the id a1 a second time is refused with 409
and the store is returned unchanged. -/
theorem register_duplicate_conflict_witness :
    register_agent dbA 7
        { id := some "a1", name := some "Agent Two", endpoint := some "http://b",
          description := none, capabilities := none } =
      (dbA, .error (409, "Agent with this ID already exists")) :=
  register_duplicate_conflict dbA 7
    { id := some "a1", name := some "Agent Two", endpoint := some "http://b",
      description := none, capabilities := none }
    "a1" "Agent Two" "http://b" agentA rfl rfl rfl (by decide)

/-- Claim C6 (confirmed): dispatch of a task that is not pending fails with
the precondition response 400 "Task is not in pending status" and leaves
the store untouched; dispatch of a pending task whose agent is absent or
not active fails with 400 "Agent not available" and leaves the store
untouched, so the task stays pending. -/
theorem dispatch_precondition_spec (db : DB) (now1 now2 : Nat) (tid : String)
    (net : NetOutcome) (t : Task)
    (hfind : db.tasks.find? (fun u => u.task_id == tid) = some t) :
    (t.status ≠ "pending" →
      execute_task db now1 now2 tid net =
        (db, .error (400, "Task is not in pending status"))) ∧
    (t.status = "pending" →
      db.agents.find? (fun a => a.id == t.agent_id) = none →
      execute_task db now1 now2 tid net =
        (db, .error (400, "Agent not available"))) ∧
    (∀ ag : Agent, t.status = "pending" →
      db.agents.find? (fun a => a.id == t.agent_id) = some ag →
      ag.status ≠ "active" →
      execute_task db now1 now2 tid net =
        (db, .error (400, "Agent not available"))) := by
  refine ⟨fun h => ?_, fun hp hag => ?_, fun ag hp hag hact => ?_⟩
  · simp [execute_task, hfind, bne_iff_ne, h]
  · simp [execute_task, hfind, hp, hag]
  · simp [execute_task, hfind, hp, hag, bne_iff_ne, hact]

/-- Witness for C6: dispatching the running task t2 is refused and the
store is unchanged; dispatching the pending task of an inactive agent is
refused and the store is unchanged. -/
theorem dispatch_precondition_spec_witness :
    execute_task { agents := [agentA], tasks := [taskR] } 1 2 "t2"
        (.ok 200) =
      ({ agents := [agentA], tasks := [taskR] },
       .error (400, "Task is not in pending status")) ∧
    execute_task { agents := [agentI], tasks := [taskP] } 1 2 "t1"
        (.ok 200) =
      ({ agents := [agentI], tasks := [taskP] },
       .error (400, "Agent not available")) :=
  ⟨(dispatch_precondition_spec { agents := [agentA], tasks := [taskR] } 1 2
      "t2" (.ok 200) taskR (by decide)).1 (by decide),
   (dispatch_precondition_spec { agents := [agentI], tasks := [taskP] } 1 2
      "t1" (.ok 200) taskP (by decide)).2.1 rfl (by decide)⟩

/-- Counterexample for C2: the agent answers with status code 201, a
success status code, yet dispatch reports failure and the task is marked
failed rather than left running, so success status codes other than 200
are not treated as acceptance. -/
theorem dispatch_success_code_counterexample :
    (execute_task dbT 1 2 "t1" (.ok 201)).2 =
      .error (500, "Agent execution failed") ∧
    (execute_task dbT 1 2 "t1" (.ok 201)).1.tasks.map Task.status =
      ["failed"] := by
  exact ⟨rfl, by decide⟩

/-- Claim C2 as amended: for every dispatch of a pending task to an active
agent where the network call returns with status code exactly 200,
dispatch returns the accepted acknowledgement, leaves the task running
with started_at = now1, does not mark any task completed and does not
touch any completed_at, and leaves the agents untouched. -/
theorem dispatch_ok200_spec (db : DB) (now1 now2 : Nat) (tid : String)
    (t : Task) (ag : Agent)
    (hfind : db.tasks.find? (fun u => u.task_id == tid) = some t)
    (hp : t.status = "pending")
    (hag : db.agents.find? (fun a => a.id == t.agent_id) = some ag)
    (hact : ag.status = "active") :
    (execute_task db now1 now2 tid (.ok 200)).2 = .ok "task_sent_to_agent" ∧
    (execute_task db now1 now2 tid (.ok 200)).1.agents = db.agents ∧
    (execute_task db now1 now2 tid (.ok 200)).1.tasks =
      db.tasks.map (fun u =>
        if u.task_id == tid then
          { u with status := "running", started_at := some now1 }
        else u) ∧
    (execute_task db now1 now2 tid (.ok 200)).1.tasks.map Task.completed_at =
      db.tasks.map Task.completed_at ∧
    (∀ u ∈ (execute_task db now1 now2 tid (.ok 200)).1.tasks,
      u.task_id = tid →
        u.status = "running" ∧ u.started_at = some now1 ∧
        u.status ≠ "completed") := by
  have heq : execute_task db now1 now2 tid (.ok 200) =
      ({ db with tasks := db.tasks.map (fun u =>
          if u.task_id == tid then markRunning now1 u else u) },
       .ok "task_sent_to_agent") := by
    simp [execute_task, hfind, hp, hag, bne_iff_ne, hact]
  refine ⟨by rw [heq], by rw [heq], by rw [heq]; rfl, ?_, ?_⟩
  · rw [heq]
    simp only [List.map_map]
    refine List.map_congr_left (fun u _ => ?_)
    by_cases hc : u.task_id = tid <;> simp [hc, markRunning]
  · rw [heq]
    intro u hu htid
    simp only [List.mem_map] at hu
    obtain ⟨v, _, hv⟩ := hu
    by_cases hc : (v.task_id == tid) = true
    · rw [if_pos hc] at hv
      subst hv
      exact ⟨rfl, rfl, by simp [markRunning]⟩
    · rw [if_neg hc] at hv
      subst hv
      exact absurd (beq_iff_eq.mpr htid) hc

/-- Witness for C2: dispatching the pending task t1 of the active agent a1
with a 200 response is acknowledged, the task list becomes the running
version of t1, and no completed_at is touched. -/
theorem dispatch_ok200_spec_witness :
    (execute_task dbT 1 2 "t1" (.ok 200)).2 = .ok "task_sent_to_agent" ∧
    (execute_task dbT 1 2 "t1" (.ok 200)).1.tasks =
      dbT.tasks.map (fun u =>
        if u.task_id == "t1" then
          { u with status := "running", started_at := some 1 }
        else u) ∧
    (execute_task dbT 1 2 "t1" (.ok 200)).1.tasks.map Task.completed_at =
      dbT.tasks.map Task.completed_at :=
  ⟨(dispatch_ok200_spec dbT 1 2 "t1" taskP agentA (by decide) rfl (by decide)
      rfl).1,
   (dispatch_ok200_spec dbT 1 2 "t1" taskP agentA (by decide) rfl (by decide)
      rfl).2.2.1,
   (dispatch_ok200_spec dbT 1 2 "t1" taskP agentA (by decide) rfl (by decide)
      rfl).2.2.2.1⟩

/-- The failure branches of execute_task: with a pending task, an active
agent and a network outcome that is not a 200 response, the task is marked
running-then-failed and a 500 error is returned. -/
theorem execute_task_fail_eq (db : DB) (now1 now2 : Nat) (tid : String)
    (t : Task) (ag : Agent) (net : NetOutcome)
    (hfind : db.tasks.find? (fun u => u.task_id == tid) = some t)
    (hp : t.status = "pending")
    (hag : db.agents.find? (fun a => a.id == t.agent_id) = some ag)
    (hact : ag.status = "active")
    (hbad : (∃ m, net = .exn m) ∨ (∃ c, net = .ok c ∧ c ≠ 200)) :
    execute_task db now1 now2 tid net =
      ({ db with tasks := db.tasks.map (fun u =>
          if u.task_id == tid then
            { u with status := "failed",
                     error_message := some (dispatchFailMsg net),
                     started_at := some now1, completed_at := some now2 }
          else u) },
       .error (500, dispatchFailResp net)) := by
  rcases hbad with ⟨m, hm⟩ | ⟨c, hc, hne⟩
  · subst hm
    have heq : execute_task db now1 now2 tid (.exn m) =
        ({ db with tasks := ((db.tasks.map (fun u =>
              if u.task_id == tid then markRunning now1 u else u)).map (fun u =>
              if u.task_id == tid then
                markFailed now2 ("Failed to communicate with agent: " ++ m) u
              else u)) },
         .error (500, "Failed to communicate with agent")) := by
      simp [execute_task, hfind, hp, hag, bne_iff_ne, hact]
    rw [heq, map_if_comp db.tasks tid (markRunning now1)
      (markFailed now2 ("Failed to communicate with agent: " ++ m))
      (fun u => rfl)]
    refine congrArg₂ Prod.mk (congrArg (fun ts => DB.mk db.agents ts) ?_) rfl
    refine List.map_congr_left (fun u _ => ?_)
    by_cases hcnd : u.task_id = tid <;>
      simp [hcnd, markRunning, markFailed, dispatchFailMsg]
  · subst hc
    have h200 : (c == 200) = false := by simp [hne]
    have heq : execute_task db now1 now2 tid (.ok c) =
        ({ db with tasks := ((db.tasks.map (fun u =>
              if u.task_id == tid then markRunning now1 u else u)).map (fun u =>
              if u.task_id == tid then
                markFailed now2 ("Agent returned status " ++ toString c) u
              else u)) },
         .error (500, "Agent execution failed")) := by
      simp [execute_task, hfind, hp, hag, bne_iff_ne, hact, h200]
    rw [heq, map_if_comp db.tasks tid (markRunning now1)
      (markFailed now2 ("Agent returned status " ++ toString c))
      (fun u => rfl)]
    refine congrArg₂ Prod.mk (congrArg (fun ts => DB.mk db.agents ts) ?_) rfl
    refine List.map_congr_left (fun u _ => ?_)
    by_cases hcnd : u.task_id = tid <;>
      simp [hcnd, markRunning, markFailed, dispatchFailMsg]

/-- Claim C3 (confirmed): for every dispatch of a pending task to an
active agent where the call raises a transport exception or the agent
answers with a non-success status code, the task is moved to failed with a
non-empty diagnostic error message and completed_at = now2, the result
field of every task is left as it was, and a 500 failure is reported to
the caller. -/
theorem dispatch_failure_spec (db : DB) (now1 now2 : Nat) (tid : String)
    (t : Task) (ag : Agent) (net : NetOutcome)
    (hfind : db.tasks.find? (fun u => u.task_id == tid) = some t)
    (hp : t.status = "pending")
    (hag : db.agents.find? (fun a => a.id == t.agent_id) = some ag)
    (hact : ag.status = "active")
    (hbad : (∃ m, net = .exn m) ∨
            (∃ c, net = .ok c ∧ (c < 200 ∨ 300 ≤ c))) :
    dispatchFailMsg net ≠ "" ∧
    (execute_task db now1 now2 tid net).2 =
      .error (500, dispatchFailResp net) ∧
    (execute_task db now1 now2 tid net).1.tasks =
      db.tasks.map (fun u =>
        if u.task_id == tid then
          { u with status := "failed",
                   error_message := some (dispatchFailMsg net),
                   started_at := some now1, completed_at := some now2 }
        else u) ∧
    (execute_task db now1 now2 tid net).1.tasks.map Task.result =
      db.tasks.map Task.result := by
  have key : execute_task db now1 now2 tid net =
      ({ db with tasks := db.tasks.map (fun u =>
          if u.task_id == tid then
            { u with status := "failed",
                     error_message := some (dispatchFailMsg net),
                     started_at := some now1, completed_at := some now2 }
          else u) },
       .error (500, dispatchFailResp net)) := by
    refine execute_task_fail_eq db now1 now2 tid t ag net hfind hp hag hact ?_
    rcases hbad with h | ⟨c, hc, hrange⟩
    · exact Or.inl h
    · exact Or.inr ⟨c, hc, by omega⟩
  refine ⟨?_, by rw [key], by rw [key], ?_⟩
  · cases net with
    | ok c =>
        exact prefix_append_ne_empty "Agent returned status " (toString c)
          (by decide)
    | exn m =>
        exact prefix_append_ne_empty "Failed to communicate with agent: " m
          (by decide)
  · rw [key, List.map_map]
    refine List.map_congr_left (fun u _ => ?_)
    by_cases hcnd : u.task_id = tid <;> simp [Function.comp, hcnd]

/-- Witness for C3: a transport exception while dispatching the pending
task t1 of the active agent a1 marks it failed with the diagnostic message
and completed_at = 2, preserves result, and reports a 500 failure. -/
theorem dispatch_failure_spec_witness :
    dispatchFailMsg (.exn "boom") ≠ "" ∧
    (execute_task dbT 1 2 "t1" (.exn "boom")).2 =
      .error (500, dispatchFailResp (.exn "boom")) ∧
    (execute_task dbT 1 2 "t1" (.exn "boom")).1.tasks =
      dbT.tasks.map (fun u =>
        if u.task_id == "t1" then
          { u with status := "failed",
                   error_message := some (dispatchFailMsg (.exn "boom")),
                   started_at := some 1, completed_at := some 2 }
        else u) ∧
    (execute_task dbT 1 2 "t1" (.exn "boom")).1.tasks.map Task.result =
      dbT.tasks.map Task.result :=
  dispatch_failure_spec dbT 1 2 "t1" taskP agentA (.exn "boom") (by decide)
    rfl (by decide) rfl (Or.inl ⟨"boom", rfl⟩)

/-- Counterexample for C9: heartbeat on agent a1 does not leave every
field other than last_heartbeat and status unchanged: the stored record is
not the one with only those two fields updated, because the on-update hook
also refreshes updated_at; and heartbeat on the unknown id zz does not
fail with NotFound: the handler's catch-all turns get_or_404's NotFound
into a 500 Internal server error response. -/
theorem heartbeat_updated_at_counterexample :
    (agent_heartbeat dbA 5 "a1").1.agents ≠
      [{ agentA with last_heartbeat := some 5, status := "active" }] ∧
    (agent_heartbeat dbA 5 "a1").1.agents =
      [{ agentA with last_heartbeat := some 5, status := "active",
                     updated_at := 5 }] ∧
    agent_heartbeat dbA 5 "zz" =
      (dbA, .error (500, "Internal server error")) :=
  ⟨by decide, by decide, rfl⟩

/-- Claim C9 as amended: for every registered agent in any status,
heartbeat sets last_heartbeat to now, forces status to active and
refreshes updated_at (the on-update hook of the model), changing nothing
else: tasks are untouched and every other agent record is kept as it was;
for an unknown id heartbeat fails with the 500 Internal server error
response (the handler's except Exception swallows get_or_404's NotFound)
and the store is unchanged, so no existing record is modified. -/
theorem heartbeat_spec (db : DB) (now : Nat) (aid : String) :
    (∀ ag : Agent, db.agents.find? (fun a => a.id == aid) = some ag →
      (agent_heartbeat db now aid).2 = .ok () ∧
      (agent_heartbeat db now aid).1.tasks = db.tasks ∧
      (agent_heartbeat db now aid).1.agents = db.agents.map (fun a =>
        if a.id == aid then
          { a with last_heartbeat := some now, status := "active",
                   updated_at := now }
        else a) ∧
      (∀ a ∈ db.agents, a.id ≠ aid →
        a ∈ (agent_heartbeat db now aid).1.agents)) ∧
    (db.agents.find? (fun a => a.id == aid) = none →
      agent_heartbeat db now aid =
        (db, .error (500, "Internal server error"))) := by
  constructor
  · intro ag hfind
    refine ⟨by simp [agent_heartbeat, hfind], by simp [agent_heartbeat, hfind],
      by simp [agent_heartbeat, hfind], ?_⟩
    intro a ha hne
    simp only [agent_heartbeat, hfind]
    exact List.mem_map.mpr ⟨a, ha, by simp [hne]⟩
  · intro h
    simp [agent_heartbeat, h]

/-- Witness for C9: heartbeat at time 5 on the registered agent a1 updates
exactly the modelled fields, and heartbeat on the unknown id zz fails with
the 500 internal error response leaving the store unchanged. -/
theorem heartbeat_spec_witness :
    (agent_heartbeat dbA 5 "a1").2 = .ok () ∧
    (agent_heartbeat dbA 5 "a1").1.agents = dbA.agents.map (fun a =>
      if a.id == "a1" then
        { a with last_heartbeat := some 5, status := "active",
                 updated_at := 5 }
      else a) ∧
    agent_heartbeat dbA 5 "zz" =
      (dbA, .error (500, "Internal server error")) :=
  ⟨((heartbeat_spec dbA 5 "a1").1 agentA (by decide)).1,
   ((heartbeat_spec dbA 5 "a1").1 agentA (by decide)).2.2.1,
   (heartbeat_spec dbA 5 "zz").2 (by decide)⟩

/-- Claim C4 is a code bug: the route body cancels the pending tasks and
deletes the agent, but Task.agent_id is NOT NULL (user.py line 48) and the
Agent.tasks relationship has no delete cascade (user.py line 60), so
committing the delete of an agent that still owns any task row raises
IntegrityError and the catch-all answers 500 with nothing persisted.
Evaluated at the failing input: unregistering a1, which owns one pending
and one running task, returns 500 and leaves the store unchanged - no
task cancelled, no record deleted - whereas an agent without tasks is
deleted (vacuously matching the claim with N = M = 0). -/
theorem unregister_integrity_failure :
    unregister_agent { agents := [agentA], tasks := [taskP, taskR] } 9
        "a1" =
      ({ agents := [agentA], tasks := [taskP, taskR] },
       .error (500, "Internal server error")) ∧
    unregister_agent dbA 9 "a1" =
      ({ agents := [], tasks := [] }, .ok ()) :=
  ⟨rfl, rfl⟩

/-- Claim C5 (confirmed): the status-update operation returns the task
updated by applyStatusUpdate; started_at is set exactly on the transition
whose old status is pending and new status is running, completed_at is set
on every update whose new status is completed, failed or cancelled,
neither timestamp moves when no status is supplied, and the stored result
and error_message are determined by the supplied fields independently of
the status field. -/
theorem update_status_fields_spec (db : DB) (now : Nat) (tid : String)
    (d : StatusUpdate) (t : Task)
    (hfind : db.tasks.find? (fun u => u.task_id == tid) = some t) :
    update_task_status db now tid d =
      ({ db with tasks := db.tasks.map (fun u =>
          if u.task_id == tid then applyStatusUpdate now d u else u) },
       .ok (applyStatusUpdate now d t)) ∧
    (applyStatusUpdate now d t).result = d.result.or t.result ∧
    (applyStatusUpdate now d t).error_message =
      d.error_message.or t.error_message ∧
    (∀ s, d.status = some s →
      (applyStatusUpdate now d t).status = s ∧
      (applyStatusUpdate now d t).started_at =
        (if s = "running" ∧ t.status = "pending" then some now
         else t.started_at) ∧
      (applyStatusUpdate now d t).completed_at =
        (if s = "completed" ∨ s = "failed" ∨ s = "cancelled" then some now
         else t.completed_at)) ∧
    (d.status = none →
      (applyStatusUpdate now d t).status = t.status ∧
      (applyStatusUpdate now d t).started_at = t.started_at ∧
      (applyStatusUpdate now d t).completed_at = t.completed_at) := by
  rcases d with ⟨ds, dr, de⟩
  refine ⟨by simp [update_task_status, hfind], ?_, ?_, ?_, ?_⟩
  · rw [applyStatusUpdate_proj]
  · rw [applyStatusUpdate_proj]
  · intro s hs
    cases hs
    rw [applyStatusUpdate_proj]
    exact applyStatusUpdate_status_some now t s
  · intro hs
    cases hs
    rw [applyStatusUpdate_proj, applyStatusUpdate_status_none]
    exact ⟨rfl, rfl, rfl⟩

/-- Witness for C5: updating the pending task t1 to running at time 4 sets
started_at and leaves completed_at alone. -/
theorem update_status_fields_spec_witness :
    (applyStatusUpdate 4
        { status := some "running", result := none, error_message := none }
        taskP).status = "running" ∧
    (applyStatusUpdate 4
        { status := some "running", result := none, error_message := none }
        taskP).started_at =
      (if "running" = "running" ∧ taskP.status = "pending" then some 4
       else taskP.started_at) ∧
    (applyStatusUpdate 4
        { status := some "running", result := none, error_message := none }
        taskP).completed_at =
      (if "running" = "completed" ∨ "running" = "failed" ∨
          "running" = "cancelled" then some 4
       else taskP.completed_at) :=
  (update_status_fields_spec dbT 4 "t1"
      { status := some "running", result := none, error_message := none }
      taskP (by decide)).2.2.2.1 "running" rfl

/-- Claim C10 (confirmed): the system-status totals count exactly the
tasks whose status is pending, running, completed or failed and the agents
whose status is active, inactive or error; a cancelled task contributes to
no reported count and not to the total. -/
theorem system_status_spec (db : DB) :
    (get_system_status db).tasks.total =
      (db.tasks.filter (fun t => t.status == "pending" ||
          t.status == "running" || t.status == "completed" ||
          t.status == "failed")).length ∧
    (get_system_status db).agents.total =
      (db.agents.filter (fun a => a.status == "active" ||
          a.status == "inactive" || a.status == "error")).length ∧
    (∀ t : Task, t.status = "cancelled" →
      get_system_status { db with tasks := t :: db.tasks } =
        get_system_status db) := by
  have hsumT : ∀ l : List Task,
      (l.filter (fun t => t.status == "pending" || t.status == "running" ||
          t.status == "completed" || t.status == "failed")).length =
        l.countP (fun t => t.status == "pending") +
        l.countP (fun t => t.status == "running") +
        l.countP (fun t => t.status == "completed") +
        l.countP (fun t => t.status == "failed") := by
    intro l
    induction l with
    | nil => simp
    | cons x xs ih =>
      by_cases h1 : x.status = "pending"
      · simp [List.filter_cons, List.countP_cons, h1, ih]
        omega
      · by_cases h2 : x.status = "running"
        · simp [List.filter_cons, List.countP_cons, h2, ih]
          omega
        · by_cases h3 : x.status = "completed"
          · simp [List.filter_cons, List.countP_cons, h3, ih]
            omega
          · by_cases h4 : x.status = "failed"
            · simp [List.filter_cons, List.countP_cons, h4, ih]
              omega
            · simp [List.filter_cons, List.countP_cons, beq_iff_eq,
                h1, h2, h3, h4, ih]
  have hsumA : ∀ l : List Agent,
      (l.filter (fun a => a.status == "active" || a.status == "inactive" ||
          a.status == "error")).length =
        l.countP (fun a => a.status == "active") +
        l.countP (fun a => a.status == "inactive") +
        l.countP (fun a => a.status == "error") := by
    intro l
    induction l with
    | nil => simp
    | cons x xs ih =>
      by_cases h1 : x.status = "active"
      · simp [List.filter_cons, List.countP_cons, h1, ih]
        omega
      · by_cases h2 : x.status = "inactive"
        · simp [List.filter_cons, List.countP_cons, h2, ih]
          omega
        · by_cases h3 : x.status = "error"
          · simp [List.filter_cons, List.countP_cons, h3, ih]
            omega
          · simp [List.filter_cons, List.countP_cons, beq_iff_eq,
              h1, h2, h3, ih]
  have hctT : ∀ s : String, db.tasks.countP (fun t => t.status == s) =
      countTasks db s := fun s => List.countP_eq_length_filter _ _
  have hctA : ∀ s : String, db.agents.countP (fun a => a.status == s) =
      countAgents db s := fun s => List.countP_eq_length_filter _ _
  refine ⟨?_, ?_, ?_⟩
  · rw [hsumT db.tasks]
    simp only [hctT]
    rfl
  · rw [hsumA db.agents]
    simp only [hctA]
    rfl
  · intro t ht
    simp [get_system_status, countTasks, countAgents, List.filter_cons, ht]

/-- Witness for C10: adding a cancelled task to the store changes nothing
in the reported system status. -/
theorem system_status_spec_witness :
    get_system_status { dbT with tasks := taskC :: dbT.tasks } =
      get_system_status dbT ∧
    (get_system_status dbT).tasks.total =
      (dbT.tasks.filter (fun t => t.status == "pending" ||
          t.status == "running" || t.status == "completed" ||
          t.status == "failed")).length :=
  ⟨(system_status_spec dbT).2.2 taskC rfl, (system_status_spec dbT).1⟩

/-- Counterexample for C7: one status-update call on a fresh pending task
may supply a terminal status together with both result and error_message;
the stored task is then terminal with both populated, so the status-update
operation does not preserve the exactly-one invariant. -/
theorem terminal_invariant_counterexample :
    ((update_task_status dbT 3 "t1"
        { status := some "completed", result := some "r",
          error_message := some "e" }).1.tasks.map
      (fun u => (u.status, u.result, u.error_message))) =
      [("completed", some "r", some "e")] ∧
    ((update_task_status dbT 3 "t1"
        { status := some "completed", result := some "r",
          error_message := some "e" }).1.tasks.map exactlyOnePopulated) =
      [false] :=
  ⟨by decide, by decide⟩

/-- Claim C7 as amended: the code does not enforce the exactly-one
invariant (see the counterexample); what holds is: a terminal status
update that supplies exactly one of result and error_message to a task
with neither populated leaves the task terminal with exactly one populated
and completed_at = now, with started_at ≤ completed_at whenever started_at
(≤ now) is present; a failed dispatch leaves the dispatched task (with
previously unset result) failed with exactly one populated and
started_at = now1 ≤ completed_at = now2; the unregistration cascade
leaves a cancelled task (with previously unset result) with exactly one
populated and started_at ≤ completed_at = now. -/
theorem terminal_invariant_spec :
    (∀ (now : Nat) (d : StatusUpdate) (t : Task) (s : String),
      t.result = none → t.error_message = none →
      d.status = some s →
      (s = "completed" ∨ s = "failed" ∨ s = "cancelled") →
      ((d.result.isSome = true ∧ d.error_message = none) ∨
        (d.result = none ∧ d.error_message.isSome = true)) →
      (∀ x, t.started_at = some x → x ≤ now) →
      ((applyStatusUpdate now d t).status = s ∧
       exactlyOnePopulated (applyStatusUpdate now d t) = true ∧
       (applyStatusUpdate now d t).completed_at = some now ∧
       (∀ x y, (applyStatusUpdate now d t).started_at = some x →
         (applyStatusUpdate now d t).completed_at = some y → x ≤ y))) ∧
    (∀ (db : DB) (now1 now2 : Nat) (tid : String) (t : Task) (ag : Agent)
        (net : NetOutcome),
      db.tasks.find? (fun u => u.task_id == tid) = some t →
      (∀ u ∈ db.tasks, u.task_id = tid → u = t) →
      t.status = "pending" → t.result = none →
      db.agents.find? (fun a => a.id == t.agent_id) = some ag →
      ag.status = "active" → now1 ≤ now2 →
      ((∃ m, net = .exn m) ∨ (∃ c, net = .ok c ∧ c ≠ 200)) →
      (∀ u ∈ (execute_task db now1 now2 tid net).1.tasks, u.task_id = tid →
        u.status = "failed" ∧ exactlyOnePopulated u = true ∧
        u.started_at = some now1 ∧ u.completed_at = some now2 ∧
        (∀ x y, u.started_at = some x → u.completed_at = some y → x ≤ y))) ∧
    (∀ (now : Nat) (aid : String) (t : Task),
      t.agent_id = aid → t.status = "pending" → t.result = none →
      (∀ x, t.started_at = some x → x ≤ now) →
      ((cancelPending aid now t).status = "cancelled" ∧
       exactlyOnePopulated (cancelPending aid now t) = true ∧
       (cancelPending aid now t).completed_at = some now ∧
       (∀ x y, (cancelPending aid now t).started_at = some x →
         (cancelPending aid now t).completed_at = some y → x ≤ y))) := by
  refine ⟨?_, ?_, ?_⟩
  · intro now d t s hr he hs hterm hwf hstart
    rcases d with ⟨ds, dr, de⟩
    cases hs
    obtain ⟨hst, hsta, hcomp⟩ := applyStatusUpdate_status_some now t s
    have hsne : ¬(s = "running" ∧ t.status = "pending") := by
      rintro ⟨hx, -⟩
      rcases hterm with h | h | h <;> rw [h] at hx <;> exact absurd hx (by decide)
    have hprojStatus :
        (applyStatusUpdate now ⟨some s, dr, de⟩ t).status = s := by
      rw [applyStatusUpdate_proj]
      exact hst
    have hprojSta :
        (applyStatusUpdate now ⟨some s, dr, de⟩ t).started_at =
          t.started_at := by
      rw [applyStatusUpdate_proj]
      show (applyStatusUpdate now ⟨some s, none, none⟩ t).started_at =
        t.started_at
      rw [hsta, if_neg hsne]
    have hprojComp :
        (applyStatusUpdate now ⟨some s, dr, de⟩ t).completed_at =
          some now := by
      rw [applyStatusUpdate_proj]
      show (applyStatusUpdate now ⟨some s, none, none⟩ t).completed_at =
        some now
      rw [hcomp, if_pos hterm]
    have hprojRes :
        (applyStatusUpdate now ⟨some s, dr, de⟩ t).result = dr.or t.result := by
      rw [applyStatusUpdate_proj]
    have hprojErr :
        (applyStatusUpdate now ⟨some s, dr, de⟩ t).error_message =
          de.or t.error_message := by
      rw [applyStatusUpdate_proj]
    refine ⟨hprojStatus, ?_, hprojComp, ?_⟩
    · rcases hwf with ⟨h1, h2⟩ | ⟨h1, h2⟩
      · obtain ⟨r, hr'⟩ := Option.isSome_iff_exists.mp h1
        have hdr : dr = some r := hr'
        have hde : de = none := h2
        subst hdr
        subst hde
        simp [exactlyOnePopulated, hprojRes, hprojErr, hr, he]
      · obtain ⟨e, he'⟩ := Option.isSome_iff_exists.mp h2
        have hdr : dr = none := h1
        have hde : de = some e := he'
        subst hdr
        subst hde
        simp [exactlyOnePopulated, hprojRes, hprojErr, hr, he]
    · intro x y hx hy
      rw [hprojSta] at hx
      rw [hprojComp] at hy
      have hyy := Option.some.inj hy
      subst hyy
      exact hstart x hx
  · intro db now1 now2 tid t ag net hfind huniq hp hres hag hact h12 hbad
    rw [execute_task_fail_eq db now1 now2 tid t ag net hfind hp hag hact hbad]
    intro u hu htid
    simp only [List.mem_map] at hu
    obtain ⟨v, hv, hveq⟩ := hu
    by_cases hc : (v.task_id == tid) = true
    · rw [if_pos hc] at hveq
      have hvt : v = t := huniq v hv (beq_iff_eq.mp hc)
      subst hvt
      subst hveq
      refine ⟨rfl, by simp [exactlyOnePopulated, hres], rfl, rfl, ?_⟩
      intro x y hx hy
      have hx' : (some now1 : Option Nat) = some x := hx
      have hy' : (some now2 : Option Nat) = some y := hy
      have hxx := Option.some.inj hx'
      have hyy := Option.some.inj hy'
      omega
    · rw [if_neg hc] at hveq
      subst hveq
      exact absurd (beq_iff_eq.mpr htid) hc
  · intro now aid t h1 h2 hres hstart
    rw [cancelPending_hit aid now t h1 h2]
    refine ⟨rfl, by simp [exactlyOnePopulated, hres], rfl, ?_⟩
    intro x y hx hy
    have hx' : t.started_at = some x := hx
    have hy' : (some now : Option Nat) = some y := hy
    have hyy := Option.some.inj hy'
    subst hyy
    exact hstart x hx'

/-- Witness for C7: a well-formed completion of the pending task t1 leaves
exactly one of result and error populated with ordered timestamps; a
failed dispatch and the unregistration cascade do the same on the concrete
store. -/
theorem terminal_invariant_spec_witness :
    ((applyStatusUpdate 3 updCompR taskP).status = "completed" ∧
     exactlyOnePopulated (applyStatusUpdate 3 updCompR taskP) = true ∧
     (applyStatusUpdate 3 updCompR taskP).completed_at = some 3 ∧
     (∀ x y, (applyStatusUpdate 3 updCompR taskP).started_at = some x →
       (applyStatusUpdate 3 updCompR taskP).completed_at = some y →
       x ≤ y)) ∧
    (∀ u ∈ (execute_task dbT 1 2 "t1" (.exn "x")).1.tasks,
      u.task_id = "t1" →
      u.status = "failed" ∧ exactlyOnePopulated u = true ∧
      u.started_at = some 1 ∧ u.completed_at = some 2 ∧
      (∀ x y, u.started_at = some x → u.completed_at = some y → x ≤ y)) ∧
    ((cancelPending "a1" 9 taskP).status = "cancelled" ∧
     exactlyOnePopulated (cancelPending "a1" 9 taskP) = true ∧
     (cancelPending "a1" 9 taskP).completed_at = some 9 ∧
     (∀ x y, (cancelPending "a1" 9 taskP).started_at = some x →
       (cancelPending "a1" 9 taskP).completed_at = some y → x ≤ y)) :=
  ⟨terminal_invariant_spec.1 3 updCompR taskP "completed" rfl rfl rfl
     (Or.inl rfl) (Or.inl ⟨rfl, rfl⟩) (fun x hx => by simp [taskP] at hx),
   terminal_invariant_spec.2.1 dbT 1 2 "t1" taskP agentA (.exn "x")
     (by decide) (by decide) rfl rfl (by decide) rfl (by omega)
     (Or.inl ⟨"x", rfl⟩),
   terminal_invariant_spec.2.2 9 "a1" taskP rfl rfl rfl
     (fun x hx => by simp [taskP] at hx)⟩

/-- The boolean ORDER BY relation spelt out as a proposition. -/
theorem taskLEP_iff (a b : Task) :
    taskLEP a b ↔ (a.priority < b.priority ∨
      (a.priority = b.priority ∧ a.created_at ≤ b.created_at)) := by
  simp [taskLEP, taskLE, Bool.or_eq_true, Bool.and_eq_true,
    decide_eq_true_eq, beq_iff_eq]

/-- A non-strict key comparison between tasks with different keys is
strict. -/
theorem taskKeyLT_of_le_ne {a b : Task} (h1 : taskLEP a b)
    (h2 : ¬ sameKey a b) : taskKeyLT a b := by
  rw [taskLEP_iff] at h1
  unfold sameKey at h2
  unfold taskKeyLT
  omega

/-- A list sorted by the ORDER BY relation whose keys are pairwise
distinct is sorted strictly. -/
theorem pairwise_keyLT_of_sorted {l : List Task}
    (h1 : List.Pairwise taskLEP l)
    (h2 : List.Pairwise (fun a b => ¬ sameKey a b) l) :
    List.Pairwise taskKeyLT l :=
  (h1.and h2).imp (fun h => taskKeyLT_of_le_ne h.1 h.2)

/-- Counterexample for C1: two distinct tasks with equal priority and
equal creation time inserted in the two possible orders give two different
list results, so re-inserting the same tasks in another order does not
reproduce the same order when keys tie. -/
theorem get_tasks_tie_counterexample :
    get_tasks { agents := [], tasks := [taskU, taskV] } none none none ≠
      get_tasks { agents := [], tasks := [taskV, taskU] } none none none ∧
    ({ agents := [], tasks := [taskU, taskV] } : DB).tasks.Perm
      ({ agents := [], tasks := [taskV, taskU] } : DB).tasks :=
  ⟨by decide, List.Perm.swap taskV taskU []⟩

/-- Claim C1 as amended: for every store and filter, get_tasks returns
exactly the tasks matching the filter, sorted by priority ascending then
creation time ascending; and whenever the (priority, created_at) keys are
pairwise distinct, inserting the same tasks in any order and re-querying
reproduces the same list. -/
theorem get_tasks_ordered (db1 db2 : DB) (aid st tt : Option String)
    (hperm : db1.tasks.Perm db2.tasks)
    (hkeys : List.Pairwise (fun a b => ¬ sameKey a b) db1.tasks) :
    (get_tasks db1 aid st tt).Perm
      (db1.tasks.filter (matchesFilter aid st tt)) ∧
    List.Pairwise taskLEP (get_tasks db1 aid st tt) ∧
    get_tasks db1 aid st tt = get_tasks db2 aid st tt := by
  have hp1 : (get_tasks db1 aid st tt).Perm
      (db1.tasks.filter (matchesFilter aid st tt)) :=
    List.perm_insertionSort _ _
  have hs1 : List.Pairwise taskLEP (get_tasks db1 aid st tt) :=
    List.sorted_insertionSort _ _
  have hp2 : (get_tasks db2 aid st tt).Perm
      (db2.tasks.filter (matchesFilter aid st tt)) :=
    List.perm_insertionSort _ _
  have hs2 : List.Pairwise taskLEP (get_tasks db2 aid st tt) :=
    List.sorted_insertionSort _ _
  refine ⟨hp1, hs1, ?_⟩
  have hfp : (db1.tasks.filter (matchesFilter aid st tt)).Perm
      (db2.tasks.filter (matchesFilter aid st tt)) := hperm.filter _
  have hperm12 : (get_tasks db1 aid st tt).Perm (get_tasks db2 aid st tt) :=
    (hp1.trans hfp).trans hp2.symm
  have hsymm : ∀ {x y : Task}, ¬ sameKey x y → ¬ sameKey y x := by
    intro x y h hxy
    exact h ⟨hxy.1.symm, hxy.2.symm⟩
  have hk1 : List.Pairwise (fun a b => ¬ sameKey a b)
      (db1.tasks.filter (matchesFilter aid st tt)) :=
    List.Pairwise.sublist (List.filter_sublist _) hkeys
  have hkS1 : List.Pairwise (fun a b => ¬ sameKey a b)
      (get_tasks db1 aid st tt) :=
    (hp1.pairwise_iff hsymm).mpr hk1
  have hkS2 : List.Pairwise (fun a b => ¬ sameKey a b)
      (get_tasks db2 aid st tt) :=
    (hperm12.pairwise_iff hsymm).mp hkS1
  exact List.eq_of_perm_of_sorted hperm12
    (pairwise_keyLT_of_sorted hs1 hkS1)
    (pairwise_keyLT_of_sorted hs2 hkS2)

/-- Witness for C1: a store with two distinct-key tasks yields a list that
is a sorted permutation of the filtered tasks and does not depend on the
insertion order. -/
theorem get_tasks_ordered_witness :
    (get_tasks dbW1 none none none).Perm
      (dbW1.tasks.filter (matchesFilter none none none)) ∧
    List.Pairwise taskLEP (get_tasks dbW1 none none none) ∧
    get_tasks dbW1 none none none = get_tasks dbW2 none none none :=
  get_tasks_ordered dbW1 dbW2 none none none
    (List.Perm.swap taskHiP taskP []) (by decide)

end MCP
